import Mathlib

/-!
Verification of the StockFlow case-study handlers: a transactional
product-provisioning endpoint (`POST /api/products`) and a low-stock
alert query (`GET /api/companies/:companyId/alerts/low-stock`).
The definitions below are a shallow embedding of the two JavaScript
handlers over an explicit relational store.
-/

namespace StockFlow

/-- A warehouse row: `id`, owning `company_id`, plus the `name` and
`location` columns read by the alert query. -/
structure Warehouse where
  id : Nat
  company_id : Nat
  name : String
  location : String
deriving DecidableEq, Repr

/-- A supplier row: `id`, `name`, and the `email` column selected by
the alert query. -/
structure Supplier where
  id : Nat
  name : String
  email : String
deriving DecidableEq, Repr

/-- A product row. `price` models the exact-decimal price column; the
provisioning handler inserts products without a supplier, so
`supplier_id` is optional (NULL when absent). -/
structure Product where
  id : Nat
  name : String
  sku : String
  price : Int
  supplier_id : Option Nat
deriving DecidableEq, Repr

/-- An inventory row: the join entity between products and warehouses,
holding the stocked `quantity`. -/
structure InventoryRow where
  product_id : Nat
  warehouse_id : Nat
  quantity : Int
deriving DecidableEq, Repr

/-- The relational store: the four tables both handlers touch. -/
structure Store where
  products : List Product
  inventory : List InventoryRow
  warehouses : List Warehouse
  suppliers : List Supplier
deriving DecidableEq, Repr

/-- The JSON body of `POST /api/products`; every field may be absent. -/
structure ProvisionRequest where
  name : Option String
  sku : Option String
  price : Option Int
  warehouse_id : Option Nat
  initial_quantity : Option Int
deriving DecidableEq, Repr

/-- JavaScript truthiness test `!x` for an optional string: absent or
empty is falsy. -/
def jsFalsyStr : Option String → Bool
  | none => true
  | some s => s == ""

/-- JavaScript truthiness test `!x` for an optional integer: absent or
zero is falsy. -/
def jsFalsyInt : Option Int → Bool
  | none => true
  | some n => n == 0

/-- JavaScript truthiness test `!x` for an optional natural: absent or
zero is falsy. -/
def jsFalsyNat : Option Nat → Bool
  | none => true
  | some n => n == 0

/-- JavaScript `x || d` on an optional integer: absent or zero yields
the default, every other value (negatives included) is kept. -/
def jsOrInt : Option Int → Int → Int
  | none, d => d
  | some n, d => if n = 0 then d else n

/-- Outcome of the transaction `t` opened at the top of the handler:
committed, rolled back, or left open (neither commit nor rollback ran
on the exit path). -/
inductive TxFate
  | committed
  | rolledBack
  | leftOpen
deriving DecidableEq, Repr

/-- The JSON body returned by the provisioning handler. -/
inductive RespBody
  | created (message : String) (product_id : Nat)
  | err (error : String)
deriving DecidableEq, Repr

/-- Full observable result of one provisioning call: HTTP status, JSON
body, the committed store afterwards, and what became of the
transaction. -/
structure PostResult where
  status : Nat
  body : RespBody
  store : Store
  txFate : TxFate
deriving DecidableEq, Repr

/-- Injected store faults, covering the failure reasons the handler
cannot rule out (connection loss, constraint violations raised by the
store, commit failure). Each flag makes the corresponding awaited step
throw. -/
structure FailureOracle where
  productCreateFails : Bool
  inventoryCreateFails : Bool
  commitFails : Bool
deriving DecidableEq, Repr

/-- Uniqueness check backing the `sku` unique constraint. -/
def skuTaken (s : Store) (sk : String) : Bool :=
  s.products.any (fun p => p.sku == sk)

/-- Foreign-key check backing `Inventory.warehouseId`. -/
def warehouseExists (s : Store) (wid : Nat) : Bool :=
  s.warehouses.any (fun w => w.id == wid)

/-- Shallow embedding of `app.post('/api/products')`. The handler
opens transaction `t` first, then validates, then runs
`Product.create` and `Inventory.create` inside `t`, commits, and on
any thrown store error rolls back and answers 500. The new product id
models the autoincrement primary key. -/
def postProducts (s : Store) (req : ProvisionRequest) (o : FailureOracle) : PostResult :=
  -- const t = await sequelize.transaction();  (before anything else)
  if jsFalsyStr req.name || jsFalsyStr req.sku
      || jsFalsyInt req.price || jsFalsyNat req.warehouse_id then
    -- return res.status(400)... : returns inside try, so t is neither
    -- committed nor rolled back on this path
    { status := 400, body := .err "Missing required fields",
      store := s, txFate := .leftOpen }
  else
    let nm := req.name.getD ""
    let sk := req.sku.getD ""
    let pr := req.price.getD 0
    let wid := req.warehouse_id.getD 0
    let pid := s.products.length + 1
    if o.productCreateFails || skuTaken s sk then
      -- Product.create threw: catch block rolls t back
      { status := 500, body := .err "Failed to create product",
        store := s, txFate := .rolledBack }
    else
      let newProduct : Product :=
        { id := pid, name := nm, sku := sk, price := pr, supplier_id := none }
      if o.inventoryCreateFails || !warehouseExists s wid then
        -- Inventory.create threw: catch block rolls t back, undoing
        -- the buffered product insert
        { status := 500, body := .err "Failed to create product",
          store := s, txFate := .rolledBack }
      else
        let inv : InventoryRow :=
          { product_id := pid, warehouse_id := wid,
            quantity := jsOrInt req.initial_quantity 0 }
        if o.commitFails then
          { status := 500, body := .err "Failed to create product",
            store := s, txFate := .rolledBack }
        else
          -- await t.commit(): both buffered rows become visible at once
          { status := 201, body := .created "Product created successfully" pid,
            store := { s with
              products := s.products ++ [newProduct],
              inventory := s.inventory ++ [inv] },
            txFate := .committed }

/-- One row of the single JOIN query issued by the alert handler:
`SELECT p.id, p.name, p.sku, w.id, w.name, i.quantity, s.id, s.name,
s.email FROM products p JOIN inventory i JOIN warehouses w JOIN
suppliers s WHERE w.company_id = ?`. -/
structure JoinRow where
  id : Nat
  name : String
  sku : String
  warehouse_id : Nat
  warehouse_name : String
  quantity : Int
  supplier_id : Nat
  supplier_name : String
  email : String
deriving DecidableEq, Repr

/-- The row the JOIN yields for one matching (product, inventory,
warehouse, supplier) tuple. -/
def mkJoinRow (p : Product) (i : InventoryRow) (w : Warehouse) (sup : Supplier) : JoinRow :=
  { id := p.id, name := p.name, sku := p.sku,
    warehouse_id := w.id, warehouse_name := w.name,
    quantity := i.quantity, supplier_id := sup.id,
    supplier_name := sup.name, email := sup.email }

/-- Shallow embedding of the JOIN query: inner joins on
`p.id = i.product_id`, `i.warehouse_id = w.id`,
`p.supplier_id = s.id`, filtered by `w.company_id = ?`. -/
def joinQuery (s : Store) (companyId : Nat) : List JoinRow :=
  s.products.flatMap fun p =>
    (s.inventory.filter fun i => i.product_id == p.id).flatMap fun i =>
      (s.warehouses.filter fun w =>
          i.warehouse_id == w.id && w.company_id == companyId).flatMap fun w =>
        (s.suppliers.filter fun sup => p.supplier_id == some sup.id).map fun sup =>
          mkJoinRow p i w sup

/-- The compiled-in low-stock threshold, `const THRESHOLD = 20`. -/
def THRESHOLD : Int := 20

/-- The nested supplier object of one alert record. -/
structure SupplierInfo where
  name : String
  contact_email : String
deriving DecidableEq, Repr

/-- One alert record pushed by the handler loop: exactly the fields of
the object literal in the source. -/
structure Alert where
  product_id : Nat
  product_name : String
  sku : String
  warehouse_name : String
  current_stock : Int
  supplier : SupplierInfo
deriving DecidableEq, Repr

/-- The alert object built from one low-stock join row. -/
def mkAlert (item : JoinRow) : Alert :=
  { product_id := item.id, product_name := item.name, sku := item.sku,
    warehouse_name := item.warehouse_name, current_stock := item.quantity,
    supplier := { name := item.supplier_name, contact_email := item.email } }

/-- The JSON body `res.json({ alerts, total_alerts: alerts.length })`
together with the HTTP status. -/
structure AlertsResponse where
  status : Nat
  alerts : List Alert
  total_alerts : Nat
deriving DecidableEq, Repr

/-- One read issued against the store by the alert handler; the single
`db.query` call carries the company id parameter. -/
inductive DbCall
  | lowStockJoin (companyId : Nat)
deriving DecidableEq, Repr

/-- Shallow embedding of
`app.get('/api/companies/:companyId/alerts/low-stock')`: one
`db.query` (recorded in the returned trace), then an in-process loop
keeping rows with `quantity < THRESHOLD`, then
`res.json({alerts, total_alerts})`. -/
def lowStockHandler (s : Store) (companyId : Nat) : AlertsResponse × List DbCall :=
  let products := joinQuery s companyId
  let alerts := (products.filter fun item => item.quantity < THRESHOLD).map mkAlert
  ({ status := 200, alerts := alerts, total_alerts := alerts.length },
   [DbCall.lowStockJoin companyId])

/-- Number of rows the single query returns and the handler loop then
iterates for a given store and company. -/
def rowsFetched (s : Store) (companyId : Nat) : Nat :=
  (joinQuery s companyId).length

/-! Concrete fixtures, following the scenario in the spec: company 1
has warehouse W1 stocking product Widget (sku W-1, quantity 5) from
supplier Acme. -/

/-- Supplier Acme with reorder email. -/
def acme : Supplier := ⟨1, "Acme", "a@acme.com"⟩

/-- Warehouse W1 of company 1. -/
def w1 : Warehouse := ⟨1, 1, "W1", "Pune"⟩

/-- Product Widget with sku W-1 supplied by Acme. -/
def widget : Product := ⟨1, "Widget", "W-1", 999, some 1⟩

/-- The scenario store: Widget stocked in W1 with quantity 5. -/
def demoStore : Store := ⟨[widget], [⟨1, 1, 5⟩], [w1], [acme]⟩

/-- The fault-free oracle: every store step succeeds unless a
constraint rejects it. -/
def demoOracle : FailureOracle := ⟨false, false, false⟩

/-- A request body with every field missing. -/
def emptyReq : ProvisionRequest := ⟨none, none, none, none, none⟩

/-- A request reusing the already-taken sku W-1. -/
def dupSkuReq : ProvisionRequest := ⟨some "Widget2", some "W-1", some 999, some 1, none⟩

/-- An otherwise valid request carrying a negative initial quantity. -/
def negQtyReq : ProvisionRequest := ⟨some "Widget2", some "W-9", some 999, some 1, some (-5)⟩

/-- A valid request with `initial_quantity` absent. -/
def noQtyReq : ProvisionRequest := ⟨some "Widget2", some "W-9", some 999, some 1, none⟩

/-- A store with no rows at all. -/
def emptyStore : Store := ⟨[], [], [], []⟩

/-- A store where company 1 owns two products, both amply stocked
(quantity 100), so the low-stock result set is empty. -/
def stockedStore : Store :=
  ⟨[⟨1, "A", "S-1", 100, some 1⟩, ⟨2, "B", "S-2", 100, some 1⟩],
   [⟨1, 1, 100⟩, ⟨2, 1, 100⟩], [w1], [acme]⟩

/-! Helper lemmas shared by the claim theorems. -/

/-- Exhaustive case analysis of one provisioning call: either the
validation rejects with 400 leaving the transaction open, or a store
step fails and the call answers 500 with the store rolled back
unchanged, or the call commits exactly one product row and one
inventory row and answers 201. -/
theorem postProducts_spec (s : Store) (req : ProvisionRequest) (o : FailureOracle) :
    ((jsFalsyStr req.name || jsFalsyStr req.sku
        || jsFalsyInt req.price || jsFalsyNat req.warehouse_id) = true
      ∧ postProducts s req o =
          { status := 400, body := .err "Missing required fields",
            store := s, txFate := .leftOpen })
    ∨ (postProducts s req o =
          { status := 500, body := .err "Failed to create product",
            store := s, txFate := .rolledBack })
    ∨ (postProducts s req o =
          { status := 201,
            body := .created "Product created successfully" (s.products.length + 1),
            store := { s with
              products := s.products ++
                [⟨s.products.length + 1, req.name.getD "", req.sku.getD "",
                  req.price.getD 0, none⟩],
              inventory := s.inventory ++
                [⟨s.products.length + 1, req.warehouse_id.getD 0,
                  jsOrInt req.initial_quantity 0⟩] },
            txFate := .committed }) := by
  unfold postProducts
  dsimp only
  repeat' split
  all_goals first
    | exact .inl ⟨by assumption, rfl⟩
    | exact .inr (.inl rfl)
    | exact .inr (.inr rfl)

/-- A row appears in the JOIN result exactly when some (product,
inventory, warehouse, supplier) tuple of the store satisfies the three
join conditions and the company filter. -/
theorem mem_joinQuery {s : Store} {cid : Nat} {r : JoinRow} :
    r ∈ joinQuery s cid ↔
      ∃ p ∈ s.products, ∃ i ∈ s.inventory, ∃ w ∈ s.warehouses, ∃ sup ∈ s.suppliers,
        i.product_id = p.id ∧ i.warehouse_id = w.id ∧ w.company_id = cid ∧
        p.supplier_id = some sup.id ∧ r = mkJoinRow p i w sup := by
  simp only [joinQuery, List.mem_flatMap, List.mem_filter, List.mem_map,
    Bool.and_eq_true, beq_iff_eq]
  constructor
  · rintro ⟨p, hp, i, ⟨hi, hip⟩, w, ⟨hw, hiw, hwc⟩, sup, ⟨hsup, hps⟩, rfl⟩
    exact ⟨p, hp, i, hi, w, hw, sup, hsup, hip, hiw, hwc, hps, rfl⟩
  · rintro ⟨p, hp, i, hi, w, hw, sup, hsup, hip, hiw, hwc, hps, rfl⟩
    exact ⟨p, hp, i, ⟨hi, hip⟩, w, ⟨hw, hiw, hwc⟩, sup, ⟨hsup, hps⟩, rfl⟩

/-- An alert is returned exactly when some fetched row is strictly
below the threshold and the alert is built from it. -/
theorem mem_alerts {s : Store} {cid : Nat} {a : Alert} :
    a ∈ (lowStockHandler s cid).1.alerts ↔
      ∃ r ∈ joinQuery s cid, r.quantity < THRESHOLD ∧ a = mkAlert r := by
  simp only [lowStockHandler, List.mem_map, List.mem_filter, decide_eq_true_eq]
  constructor
  · rintro ⟨r, ⟨hr, hq⟩, rfl⟩
    exact ⟨r, hr, hq, rfl⟩
  · rintro ⟨r, hr, hq, rfl⟩
    exact ⟨r, ⟨hr, hq⟩, rfl⟩

/-! Claim theorems for the provisioning handler. -/

/-- C1: Product Provisioning is atomic. On every non-201 exit
(validation rejection or any failed store step, whatever the reason)
the committed store is exactly the pre-call store, so a failed
inventory step also undoes the product insert; on a 201 exit exactly
one product row and one inventory row referencing it are committed
together. Hence no committed state ever has the product present and
the inventory absent. -/
theorem provisioning_atomic (s : Store) (req : ProvisionRequest) (o : FailureOracle) :
    ((postProducts s req o).status ≠ 201 → (postProducts s req o).store = s) ∧
    ((postProducts s req o).status = 201 →
      ∃ p inv, (postProducts s req o).store.products = s.products ++ [p] ∧
        (postProducts s req o).store.inventory = s.inventory ++ [inv] ∧
        inv.product_id = p.id) := by
  rcases postProducts_spec s req o with ⟨hv, heq⟩ | heq | heq <;> rw [heq]
  · exact ⟨fun _ => rfl, fun h => by simp at h⟩
  · exact ⟨fun _ => rfl, fun h => by simp at h⟩
  · exact ⟨fun hne => absurd rfl hne, fun _ => ⟨_, _, rfl, rfl, rfl⟩⟩

/-- Witness for C1: the duplicate-sku request of the spec scenario
fails and leaves the scenario store unchanged. -/
theorem provisioning_atomic_witness :
    (postProducts demoStore dupSkuReq demoOracle).store = demoStore :=
  (provisioning_atomic demoStore dupSkuReq demoOracle).1 (by decide)

/-- C2, evaluated at the failing input: with every field missing the
handler does answer 400 with the store untouched, but the transaction
was already opened before the validation check ran and is left open
(neither committed nor rolled back) on this exit path, so the
rejection does not happen before every transactional step. -/
theorem txn_opened_before_validation :
    (postProducts demoStore emptyReq demoOracle).status = 400 ∧
    (postProducts demoStore emptyReq demoOracle).store = demoStore ∧
    (postProducts demoStore emptyReq demoOracle).txFate = TxFate.leftOpen := by
  decide

/-- C10: on every request failing validation, the handler answers 400
with the store unchanged while the transaction it opened first is
neither committed nor rolled back: it is left open. -/
theorem validation_failure_leaves_transaction_open (s : Store) (req : ProvisionRequest)
    (o : FailureOracle)
    (h : (jsFalsyStr req.name || jsFalsyStr req.sku
          || jsFalsyInt req.price || jsFalsyNat req.warehouse_id) = true) :
    (postProducts s req o).status = 400 ∧
    (postProducts s req o).txFate = TxFate.leftOpen ∧
    (postProducts s req o).store = s := by
  unfold postProducts
  rw [if_pos h]
  exact ⟨rfl, rfl, rfl⟩

/-- Witness for C10 at the all-fields-missing request. -/
theorem validation_failure_leaves_transaction_open_witness :
    (postProducts demoStore emptyReq demoOracle).status = 400 ∧
    (postProducts demoStore emptyReq demoOracle).txFate = TxFate.leftOpen ∧
    (postProducts demoStore emptyReq demoOracle).store = demoStore :=
  validation_failure_leaves_transaction_open demoStore emptyReq demoOracle (by decide)

/-- C4: when `initial_quantity` is absent and the call succeeds, the
single committed inventory row has quantity 0. -/
theorem absent_initial_quantity_defaults_to_zero (s : Store) (req : ProvisionRequest)
    (o : FailureOracle) (hq : req.initial_quantity = none)
    (hs : (postProducts s req o).status = 201) :
    ∃ inv : InventoryRow,
      (postProducts s req o).store.inventory = s.inventory ++ [inv] ∧
      inv.quantity = 0 := by
  rcases postProducts_spec s req o with ⟨hv, heq⟩ | heq | heq
  · rw [heq] at hs; simp at hs
  · rw [heq] at hs; simp at hs
  · rw [heq]
    exact ⟨_, rfl, by rw [hq]; rfl⟩

/-- Witness for C4: provisioning Widget2 without an initial quantity
commits an inventory row of quantity 0. -/
theorem absent_initial_quantity_defaults_to_zero_witness :
    ∃ inv : InventoryRow,
      (postProducts demoStore noQtyReq demoOracle).store.inventory =
        demoStore.inventory ++ [inv] ∧ inv.quantity = 0 :=
  absent_initial_quantity_defaults_to_zero demoStore noQtyReq demoOracle rfl (by decide)

/-- C5, evaluated on the code: an otherwise valid request with
`initial_quantity = -5` is not rejected; the handler succeeds with 201
and commits an inventory row whose quantity is -5, because
`initial_quantity || 0` keeps every non-zero value and no validation
covers negative quantities. -/
theorem negative_initial_quantity_committed :
    (postProducts demoStore negQtyReq demoOracle).status = 201 ∧
    (⟨2, 1, -5⟩ : InventoryRow) ∈
      (postProducts demoStore negQtyReq demoOracle).store.inventory := by
  decide

/-- C7: on success the handler answers 201 with the fixed success
message and the id of the product row it committed; on any store
failure it answers 500 with the fixed generic message, which is the
same constant for every failure cause and so never carries internal
storage error text. -/
theorem provisioning_response_contract (s : Store) (req : ProvisionRequest)
    (o : FailureOracle) :
    ((postProducts s req o).status = 201 →
      ∃ p : Product, (postProducts s req o).store.products = s.products ++ [p] ∧
        (postProducts s req o).body =
          RespBody.created "Product created successfully" p.id) ∧
    ((postProducts s req o).status = 500 →
      (postProducts s req o).body = RespBody.err "Failed to create product") := by
  rcases postProducts_spec s req o with ⟨hv, heq⟩ | heq | heq <;> rw [heq]
  · exact ⟨fun h => by simp at h, fun h => by simp at h⟩
  · exact ⟨fun h => by simp at h, fun _ => rfl⟩
  · exact ⟨fun _ => ⟨_, rfl, rfl⟩, fun h => by simp at h⟩

/-- Witness for C7: the duplicate-sku failure answers with the fixed
generic error body. -/
theorem provisioning_response_contract_witness :
    (postProducts demoStore dupSkuReq demoOracle).body =
      RespBody.err "Failed to create product" :=
  (provisioning_response_contract demoStore dupSkuReq demoOracle).2 (by decide)

/-! Claim theorems for the alert handler. -/

/-- C3: an alert is returned for company `cid` exactly when the store
holds a (product, inventory, warehouse, supplier) tuple satisfying the
join conditions, whose warehouse belongs to company `cid` and whose
quantity is strictly below 20; so no row with quantity at least 20 and
no row of another company ever appears. -/
theorem lowStock_returns_exactly_company_lowstock (s : Store) (cid : Nat) (a : Alert) :
    a ∈ (lowStockHandler s cid).1.alerts ↔
      ∃ p ∈ s.products, ∃ i ∈ s.inventory, ∃ w ∈ s.warehouses, ∃ sup ∈ s.suppliers,
        i.product_id = p.id ∧ i.warehouse_id = w.id ∧ w.company_id = cid ∧
        p.supplier_id = some sup.id ∧ i.quantity < THRESHOLD ∧
        a = mkAlert (mkJoinRow p i w sup) := by
  rw [mem_alerts]
  constructor
  · rintro ⟨r, hr, hq, rfl⟩
    obtain ⟨p, hp, i, hi, w, hw, sup, hsup, h1, h2, h3, h4, rfl⟩ := mem_joinQuery.mp hr
    exact ⟨p, hp, i, hi, w, hw, sup, hsup, h1, h2, h3, h4, hq, rfl⟩
  · rintro ⟨p, hp, i, hi, w, hw, sup, hsup, h1, h2, h3, h4, hq, rfl⟩
    exact ⟨mkJoinRow p i w sup,
      mem_joinQuery.mpr ⟨p, hp, i, hi, w, hw, sup, hsup, h1, h2, h3, h4, rfl⟩, hq, rfl⟩

/-- The alert produced by the spec scenario: Widget at 5 units in W1
with the Acme reorder contact. -/
def demoAlert : Alert := ⟨1, "Widget", "W-1", "W1", 5, ⟨"Acme", "a@acme.com"⟩⟩

/-- Witness for C3: the scenario store yields the Widget alert for
company 1. -/
theorem lowStock_returns_exactly_company_lowstock_witness :
    demoAlert ∈ (lowStockHandler demoStore 1).1.alerts :=
  (lowStock_returns_exactly_company_lowstock demoStore 1 demoAlert).mpr
    ⟨widget, by decide, ⟨1, 1, 5⟩, by decide, w1, by decide, acme, by decide,
     rfl, rfl, rfl, rfl, by decide, by decide⟩

/-- C6: for a company identifier with no warehouse in the store, or
more generally whenever no fetched row for the company is below the
threshold (a company with zero products included), the query succeeds
with status 200 and the empty body: no alerts and a zero total. -/
theorem lowStock_empty_for_missing_or_fully_stocked_company (s : Store) (cid : Nat)
    (h : (∀ w ∈ s.warehouses, w.company_id ≠ cid) ∨
         (∀ r ∈ joinQuery s cid, THRESHOLD ≤ r.quantity)) :
    (lowStockHandler s cid).1 = { status := 200, alerts := [], total_alerts := 0 } := by
  have hall : ∀ r ∈ joinQuery s cid, THRESHOLD ≤ r.quantity := by
    rcases h with h | h
    · intro r hr
      obtain ⟨p, hp, i, hi, w, hw, sup, hsup, h1, h2, h3, h4, rfl⟩ := mem_joinQuery.mp hr
      exact absurd h3 (h w hw)
    · exact h
  have hfilter :
      (joinQuery s cid).filter (fun item => decide (item.quantity < THRESHOLD)) = [] := by
    apply List.eq_nil_iff_forall_not_mem.mpr
    intro r hr
    rw [List.mem_filter] at hr
    have := hall r hr.1
    simp only [decide_eq_true_eq] at hr
    exact absurd hr.2 (not_lt.mpr this)
  simp [lowStockHandler, hfilter]

/-- Witness for C6: company 1 owns no warehouse in a store whose only
warehouse belongs to company 2, and the query answers the empty body. -/
theorem lowStock_empty_for_missing_or_fully_stocked_company_witness :
    (lowStockHandler (Store.mk [widget] [⟨1, 1, 5⟩] [⟨1, 2, "W1", "Pune"⟩] [acme]) 1).1 =
      { status := 200, alerts := [], total_alerts := 0 } :=
  lowStock_empty_for_missing_or_fully_stocked_company
    (Store.mk [widget] [⟨1, 1, 5⟩] [⟨1, 2, "W1", "Pune"⟩] [acme]) 1 (Or.inl (by decide))

/-- C8: the returned total count always equals the length of the
alerts array, and every returned alert is built from a fetched row,
carrying exactly the product id, product name, sku, warehouse name,
current stock and the nested supplier name and contact email of that
row (the `Alert` and `SupplierInfo` structures list exactly the fields
of the object literal in the source). -/
theorem alerts_shape_and_total_count (s : Store) (cid : Nat) :
    (lowStockHandler s cid).1.total_alerts = (lowStockHandler s cid).1.alerts.length ∧
    ∀ a ∈ (lowStockHandler s cid).1.alerts, ∃ r ∈ joinQuery s cid,
      a = { product_id := r.id, product_name := r.name, sku := r.sku,
            warehouse_name := r.warehouse_name, current_stock := r.quantity,
            supplier := { name := r.supplier_name, contact_email := r.email } } := by
  refine ⟨rfl, fun a ha => ?_⟩
  obtain ⟨r, hr, hq, rfl⟩ := mem_alerts.mp ha
  exact ⟨r, hr, rfl⟩

/-- Witness for C8: at the scenario store the total equals the array
length. -/
theorem alerts_shape_and_total_count_witness :
    (lowStockHandler demoStore 1).1.total_alerts =
      (lowStockHandler demoStore 1).1.alerts.length :=
  (alerts_shape_and_total_count demoStore 1).1

/-- C9 counterexample: two stores whose low-stock result sets are both
empty, yet the single query fetches (and the loop iterates) 0 rows in
one store and 2 rows in the other, growing with the number of products
the company owns; the threshold filter runs in application code, so
the per-request cost is not bounded by the result-set size. -/
theorem lowStock_cost_not_bounded_by_result_cex :
    (lowStockHandler stockedStore 1).1.alerts = [] ∧
    (lowStockHandler emptyStore 1).1.alerts = [] ∧
    rowsFetched stockedStore 1 = 2 ∧
    rowsFetched emptyStore 1 = 0 := by
  decide

/-- C9 amended: the query is answered with exactly one store read per
request — the same single join call whatever the store contents, so
never one query per product — and the alerts are computed in-process
by filtering the rows of that one read against the threshold. -/
theorem lowStock_single_query (s s2 : Store) (cid : Nat) :
    (lowStockHandler s cid).2 = [DbCall.lowStockJoin cid] ∧
    (lowStockHandler s cid).2.length = 1 ∧
    (lowStockHandler s cid).2 = (lowStockHandler s2 cid).2 ∧
    (lowStockHandler s cid).1.alerts =
      ((joinQuery s cid).filter fun item => item.quantity < THRESHOLD).map mkAlert :=
  ⟨rfl, rfl, rfl, rfl⟩

end StockFlow
